import Mathlib

/-!
Verification of the `bevy_text` text data model
(`crates/bevy_text/src/text.rs`): the content model (`Text`,
`TextSection`), the style model (`TextStyle` and its `clone_with_*`
derive operations), and the alignment model (`TextAlignment`,
`HorizontalAlign`, `VerticalAlign`) with their conversions into the
`glyph_brush_layout` vocabulary.

External collaborator types (`bevy_asset::Handle<Font>`,
`bevy_render::color::Color`, the `glyph_brush_layout` enums) are not part
of this crate; they are modelled from the spec's description of their
interface (opaque equality-comparable handle, RGBA color with an opaque
white constant, same-named alignment variants).  No arithmetic is ever
performed on the floating-point fields in this crate — they are only
stored, copied and compared — so `f32` values are embedded as rationals.
-/

namespace BevyText

/-- Modelled from the spec: the font asset handle, `bevy_asset::Handle<Font>`,
is outside this crate; the spec requires only an opaque, copyable,
default-constructible, equality-comparable reference token. -/
structure FontHandle where
  id : Nat
deriving DecidableEq, Repr

/-- Modelled from the spec: the default sentinel "no font loaded" handle
(`Handle::<Font>::default()`). -/
def FontHandle.default : FontHandle := { id := 0 }

/-- Modelled from the spec: `bevy_render::color::Color` is outside this
crate; the spec requires an RGBA floating-point color value type supporting
equality comparison.  Components are embedded as rationals since this crate
never computes with them. -/
structure Color where
  red : ℚ
  green : ℚ
  blue : ℚ
  alpha : ℚ
deriving DecidableEq, Repr

/-- Modelled from the spec: the named opaque-white constant `Color::WHITE`. -/
def Color.WHITE : Color := { red := 1, green := 1, blue := 1, alpha := 1 }

/-- TextStyle (text.rs lines 199-204): font handle, font size, color. -/
structure TextStyle where
  font : FontHandle
  font_size : ℚ
  color : Color
deriving DecidableEq, Repr

/-- Default for TextStyle (text.rs lines 206-214): default handle,
size 12.0, white. -/
def TextStyle.default : TextStyle :=
  { font := FontHandle.default, font_size := 12, color := Color.WHITE }

/-- TextStyle::new (text.rs lines 218-224): stores a clone of the given
handle together with the given size and color. -/
def TextStyle.new (font : FontHandle) (font_size : ℚ) (color : Color) : TextStyle :=
  { font := font, font_size := font_size, color := color }

/-- TextStyle::clone_with_font (text.rs lines 241-247): new style with the
given font, other fields copied from `s`. -/
def TextStyle.clone_with_font (s : TextStyle) (font : FontHandle) : TextStyle :=
  { font := font, font_size := s.font_size, color := s.color }

/-- TextStyle::clone_with_font_size (text.rs lines 263-269): new style with
the given font size, other fields copied from `s`. -/
def TextStyle.clone_with_font_size (s : TextStyle) (font_size : ℚ) : TextStyle :=
  { font := s.font, font_size := font_size, color := s.color }

/-- TextStyle::clone_with_color (text.rs lines 286-292): new style with the
given color, other fields copied from `s`. -/
def TextStyle.clone_with_color (s : TextStyle) (color : Color) : TextStyle :=
  { font := s.font, font_size := s.font_size, color := color }

/-- Written from the spec's words (refinement target for equality):
"two styles equal iff font reference, size, and color all compare equal". -/
def TextStyle.spec_eq (a b : TextStyle) : Prop :=
  a.font = b.font ∧ a.font_size = b.font_size ∧ a.color = b.color

/-- TextSection (text.rs lines 121-125): a run of text under one style. -/
structure TextSection where
  value : String
  style : TextStyle
deriving DecidableEq, Repr

/-- TextSection::new (text.rs lines 127-134). -/
def TextSection.new (value : String) (style : TextStyle) : TextSection :=
  { value := value, style := style }

/-- VerticalAlign (text.rs lines 180-187). -/
inductive VerticalAlign
  | Top
  | Center
  | Bottom
deriving DecidableEq, Repr

/-- HorizontalAlign (text.rs lines 154-164). -/
inductive HorizontalAlign
  | Left
  | Center
  | Right
deriving DecidableEq, Repr

/-- TextAlignment (text.rs lines 136-140). -/
structure TextAlignment where
  vertical : VerticalAlign
  horizontal : HorizontalAlign
deriving DecidableEq, Repr

/-- Default for TextAlignment (text.rs lines 142-149): Top / Left. -/
def TextAlignment.default : TextAlignment :=
  { vertical := VerticalAlign.Top, horizontal := HorizontalAlign.Left }

/-- Text (text.rs lines 11-14): ordered sections plus whole-text alignment. -/
structure Text where
  sections : List TextSection
  alignment : TextAlignment
deriving DecidableEq, Repr

/-- Text::with_section (text.rs lines 52-64): one section holding `value`
under `style`, with the given alignment. -/
def Text.with_section (value : String) (style : TextStyle) (alignment : TextAlignment) : Text :=
  { sections := [{ value := value, style := style }], alignment := alignment }

/-- Text::with_sections (text.rs lines 106-118): one section per input
value, each holding a clone of `style`, with the given alignment. -/
def Text.with_sections (values : List String) (style : TextStyle)
    (alignment : TextAlignment) : Text :=
  { sections := values.map (fun v => { value := v, style := style }),
    alignment := alignment }

namespace glyph_brush_layout

/-- Modelled from the spec: the external layout engine's horizontal
alignment vocabulary (crate `glyph_brush_layout`, outside this repository),
with the same-named variants the source's match arms name. -/
inductive HorizontalAlign
  | Left
  | Center
  | Right
deriving DecidableEq, Repr

/-- Modelled from the spec: the external layout engine's vertical alignment
vocabulary (crate `glyph_brush_layout`, outside this repository). -/
inductive VerticalAlign
  | Top
  | Center
  | Bottom
deriving DecidableEq, Repr

end glyph_brush_layout

/-- impl From<HorizontalAlign> for glyph_brush_layout::HorizontalAlign
(text.rs lines 166-174): exhaustive match, no default arm. -/
def HorizontalAlign.into : HorizontalAlign → glyph_brush_layout.HorizontalAlign
  | HorizontalAlign.Left => glyph_brush_layout.HorizontalAlign.Left
  | HorizontalAlign.Center => glyph_brush_layout.HorizontalAlign.Center
  | HorizontalAlign.Right => glyph_brush_layout.HorizontalAlign.Right

/-- impl From<VerticalAlign> for glyph_brush_layout::VerticalAlign
(text.rs lines 189-197): exhaustive match, no default arm. -/
def VerticalAlign.into : VerticalAlign → glyph_brush_layout.VerticalAlign
  | VerticalAlign.Top => glyph_brush_layout.VerticalAlign.Top
  | VerticalAlign.Center => glyph_brush_layout.VerticalAlign.Center
  | VerticalAlign.Bottom => glyph_brush_layout.VerticalAlign.Bottom

/-- C1: Text::with_sections returns exactly `values.length` sections whose
i-th value is `values[i]`, in input order; when `values` is empty the
result has zero sections. -/
theorem with_sections_values_in_order (values : List String) (style : TextStyle)
    (a : TextAlignment) :
    (Text.with_sections values style a).sections.length = values.length ∧
    (∀ i : Nat,
      ((Text.with_sections values style a).sections[i]?).map TextSection.value = values[i]?) ∧
    (values = [] → (Text.with_sections values style a).sections = []) := by
  refine ⟨by simp [Text.with_sections], fun i => ?_, fun h => by simp [Text.with_sections, h]⟩
  simp only [Text.with_sections, List.getElem?_map, Option.map_map]
  cases values[i]? <;> rfl

/-- C1 witness: the empty-contents case at a concrete style and alignment. -/
theorem with_sections_values_in_order_witness :
    (Text.with_sections [] TextStyle.default TextAlignment.default).sections = [] :=
  (with_sections_values_in_order [] TextStyle.default TextAlignment.default).2.2 rfl

/-- C2: every section produced by Text::with_sections carries (a clone of)
the given style, hence any two sections' styles are equal, and the
returned alignment is the given one. -/
theorem with_sections_uniform_style (values : List String) (style : TextStyle)
    (a : TextAlignment) :
    (∀ i (hi : i < (Text.with_sections values style a).sections.length),
      ((Text.with_sections values style a).sections.get ⟨i, hi⟩).style = style) ∧
    (∀ i j (hi : i < (Text.with_sections values style a).sections.length)
      (hj : j < (Text.with_sections values style a).sections.length),
      ((Text.with_sections values style a).sections.get ⟨i, hi⟩).style =
        ((Text.with_sections values style a).sections.get ⟨j, hj⟩).style) ∧
    (Text.with_sections values style a).alignment = a := by
  have h : ∀ i (hi : i < (Text.with_sections values style a).sections.length),
      ((Text.with_sections values style a).sections.get ⟨i, hi⟩).style = style := by
    intro i hi
    simp [Text.with_sections]
  exact ⟨h, fun i j hi hj => (h i hi).trans (h j hj).symm, rfl⟩

/-- C2 witness: the two-section scenario at a concrete style and alignment. -/
theorem with_sections_uniform_style_witness :
    ((Text.with_sections ["hello ", "world!"] TextStyle.default
        TextAlignment.default).sections.get ⟨0, by decide⟩).style = TextStyle.default ∧
    ((Text.with_sections ["hello ", "world!"] TextStyle.default
        TextAlignment.default).sections.get ⟨0, by decide⟩).style =
      ((Text.with_sections ["hello ", "world!"] TextStyle.default
        TextAlignment.default).sections.get ⟨1, by decide⟩).style ∧
    (Text.with_sections ["hello ", "world!"] TextStyle.default
        TextAlignment.default).alignment = TextAlignment.default :=
  ⟨(with_sections_uniform_style ["hello ", "world!"] TextStyle.default
      TextAlignment.default).1 0 (by decide),
   (with_sections_uniform_style ["hello ", "world!"] TextStyle.default
      TextAlignment.default).2.1 0 1 (by decide) (by decide),
   (with_sections_uniform_style ["hello ", "world!"] TextStyle.default
      TextAlignment.default).2.2⟩

/-- C3: each clone_with_* derive operation produces a style unequal to the
original whenever the replaced field's new value differs from the current
one. -/
theorem clone_with_changed_field_ne (s : TextStyle) :
    (∀ f2, f2 ≠ s.font → s.clone_with_font f2 ≠ s) ∧
    (∀ sz2, sz2 ≠ s.font_size → s.clone_with_font_size sz2 ≠ s) ∧
    (∀ c2, c2 ≠ s.color → s.clone_with_color c2 ≠ s) :=
  ⟨fun _ hf h => hf (congrArg TextStyle.font h),
   fun _ hs h => hs (congrArg TextStyle.font_size h),
   fun _ hc h => hc (congrArg TextStyle.color h)⟩

/-- C3 witness: changing font, size or color away from the default style
yields an unequal style. -/
theorem clone_with_changed_field_ne_witness :
    TextStyle.default.clone_with_font { id := 1 } ≠ TextStyle.default ∧
    TextStyle.default.clone_with_font_size 40 ≠ TextStyle.default ∧
    TextStyle.default.clone_with_color
        { red := 1, green := 0, blue := 0, alpha := 1 } ≠ TextStyle.default :=
  ⟨(clone_with_changed_field_ne TextStyle.default).1 _ (by decide),
   (clone_with_changed_field_ne TextStyle.default).2.1 _ (by decide),
   (clone_with_changed_field_ne TextStyle.default).2.2 _ (by decide)⟩

/-- C4: equality on TextStyle is structural — two styles are equal iff
their font references, font sizes and colors all compare equal (the spec's
wording is `TextStyle.spec_eq`). -/
theorem textstyle_eq_iff_structural (a b : TextStyle) :
    a = b ↔ TextStyle.spec_eq a b := by
  cases a
  cases b
  simp [TextStyle.spec_eq]

/-- C5: both alignment conversions are total functions mapping each variant
to the same-named external variant, and each is injective. -/
theorem align_conversions_total_injective :
    (HorizontalAlign.into HorizontalAlign.Left = glyph_brush_layout.HorizontalAlign.Left ∧
     HorizontalAlign.into HorizontalAlign.Center = glyph_brush_layout.HorizontalAlign.Center ∧
     HorizontalAlign.into HorizontalAlign.Right = glyph_brush_layout.HorizontalAlign.Right) ∧
    (VerticalAlign.into VerticalAlign.Top = glyph_brush_layout.VerticalAlign.Top ∧
     VerticalAlign.into VerticalAlign.Center = glyph_brush_layout.VerticalAlign.Center ∧
     VerticalAlign.into VerticalAlign.Bottom = glyph_brush_layout.VerticalAlign.Bottom) ∧
    (∀ x y : HorizontalAlign, HorizontalAlign.into x = HorizontalAlign.into y → x = y) ∧
    (∀ x y : VerticalAlign, VerticalAlign.into x = VerticalAlign.into y → x = y) := by
  refine ⟨⟨rfl, rfl, rfl⟩, ⟨rfl, rfl, rfl⟩, ?_, ?_⟩ <;>
    · intro x y h
      cases x <;> cases y <;> first | rfl | exact absurd h (by decide)

/-- C5 witness: the injectivity implications applied at concrete variants. -/
theorem align_conversions_total_injective_witness :
    HorizontalAlign.Center = HorizontalAlign.Center ∧
    VerticalAlign.Bottom = VerticalAlign.Bottom :=
  ⟨align_conversions_total_injective.2.2.1 HorizontalAlign.Center HorizontalAlign.Center rfl,
   align_conversions_total_injective.2.2.2 VerticalAlign.Bottom VerticalAlign.Bottom rfl⟩

/-- C6: Text::with_section returns exactly one section holding the given
value under the given style, and the given alignment. -/
theorem with_section_single (value : String) (style : TextStyle) (a : TextAlignment) :
    (Text.with_section value style a).sections = [{ value := value, style := style }] ∧
    (Text.with_section value style a).alignment = a :=
  ⟨rfl, rfl⟩

/-- C7: each clone_with_* derive operation changes only its named field,
leaving the other two fields equal to the original style's. -/
theorem clone_with_frame (s : TextStyle) (f2 : FontHandle) (sz2 : ℚ) (c2 : Color) :
    (s.clone_with_font f2).font_size = s.font_size ∧
    (s.clone_with_font f2).color = s.color ∧
    (s.clone_with_font_size sz2).font = s.font ∧
    (s.clone_with_font_size sz2).color = s.color ∧
    (s.clone_with_color c2).font = s.font ∧
    (s.clone_with_color c2).font_size = s.font_size :=
  ⟨rfl, rfl, rfl, rfl, rfl, rfl⟩

/-- C8: the default TextStyle has the default sentinel font handle, font
size 12.0 and opaque white, and the default TextAlignment is Left / Top. -/
theorem defaults_are_as_specified :
    TextStyle.default.font = FontHandle.default ∧
    TextStyle.default.font_size = 12 ∧
    TextStyle.default.color = Color.WHITE ∧
    TextAlignment.default.horizontal = HorizontalAlign.Left ∧
    TextAlignment.default.vertical = VerticalAlign.Top :=
  ⟨rfl, rfl, rfl, rfl, rfl⟩

/-- C9: replacing a field with its current value is an identity for each
clone_with_* derive operation. -/
theorem clone_with_same_value_identity (s : TextStyle) :
    s.clone_with_font s.font = s ∧
    s.clone_with_font_size s.font_size = s ∧
    s.clone_with_color s.color = s :=
  ⟨rfl, rfl, rfl⟩

/-- C10: TextSection::new stores its two arguments unchanged. -/
theorem textsection_new_stores_arguments (value : String) (style : TextStyle) :
    (TextSection.new value style).value = value ∧
    (TextSection.new value style).style = style :=
  ⟨rfl, rfl⟩

end BevyText
